import Mathlib

/-!
Verification development for the payment-lifecycle orchestration core of a
chat-bot subscription shop (Go sources: `internal/payment/payment.go` and the
`rapyd` provider client package).

The Go code is shallowly embedded below:
* Go strings and byte slices become `Bytes` (lists of naturals below 256) in
  the wire-protocol layer, and Lean `String` in the ledger/business layer;
* Go `float64` amounts and rates become exact rationals `ℚ`;
* fallible calls become `Except GoErr` / `Option GoErr` values supplied by an
  explicit environment record, one field per call site, so every control path
  of the source is represented;
* the persisted state (purchase ledger, customers, referrals) is an explicit
  `DB` record threaded through the functions, and externally observable calls
  (entitlement extension, remote status polls, referrer crediting) are logged
  in an event trace returned alongside the result.
-/

/-! ## Byte strings and 32-bit arithmetic -/

/-- Go strings / byte slices: sequences of bytes, each below 256. -/
abbrev Bytes := List Nat

/-- ASCII bytes of a Lean string literal (used only for concrete inputs). -/
def asciiBytes (s : String) : Bytes := s.data.map Char.toNat

/-- Reduce modulo 2^32 (machine `uint32` overflow). -/
def w32 (n : Nat) : Nat := n % 4294967296

def add32 (a b : Nat) : Nat := w32 (a + b)

def xor32 (a b : Nat) : Nat := Nat.xor a b

def and32 (a b : Nat) : Nat := Nat.land a b

def not32 (a : Nat) : Nat := Nat.xor a 4294967295

/-- 32-bit rotate right, for arguments below 2^32. -/
def rotr32 (x k : Nat) : Nat := w32 ((x >>> k) + w32 (x <<< (32 - k)))

/-! ## SHA-256 (FIPS 180-4), as used by Go `crypto/sha256` -/

def shaK : Array Nat := #[
  1116352408, 1899447441, 3049323471, 3921009573, 961987163, 1508970993,
  2453635748, 2870763221, 3624381080, 310598401, 607225278, 1426881987,
  1925078388, 2162078206, 2614888103, 3248222580, 3835390401, 4022224774,
  264347078, 604807628, 770255983, 1249150122, 1555081692, 1996064986,
  2554220882, 2821834349, 2952996808, 3210313671, 3336571891, 3584528711,
  113926993, 338241895, 666307205, 773529912, 1294757372, 1396182291,
  1695183700, 1986661051, 2177026350, 2456956037, 2730485921, 2820302411,
  3259730800, 3345764771, 3516065817, 3600352804, 4094571909, 275423344,
  430227734, 506948616, 659060556, 883997877, 958139571, 1322822218,
  1537002063, 1747873779, 1955562222, 2024104815, 2227730452, 2361852424,
  2428436474, 2756734187, 3204031479, 3329325298]

def shaH0 : List Nat :=
  [1779033703, 3144134277, 1013904242, 2773480762,
   1359893119, 2600822924, 528734635, 1541459225]

def smallSigma0 (x : Nat) : Nat := xor32 (xor32 (rotr32 x 7) (rotr32 x 18)) (x >>> 3)

def smallSigma1 (x : Nat) : Nat := xor32 (xor32 (rotr32 x 17) (rotr32 x 19)) (x >>> 10)

def bigSigma0 (x : Nat) : Nat := xor32 (xor32 (rotr32 x 2) (rotr32 x 13)) (rotr32 x 22)

def bigSigma1 (x : Nat) : Nat := xor32 (xor32 (rotr32 x 6) (rotr32 x 11)) (rotr32 x 25)

def shaCh (x y z : Nat) : Nat := xor32 (and32 x y) (and32 (not32 x) z)

def shaMaj (x y z : Nat) : Nat := xor32 (xor32 (and32 x y) (and32 x z)) (and32 y z)

/-- Big-endian word of (up to four) bytes. -/
def beWord (bs : Bytes) : Nat := bs.foldl (fun acc b => acc * 256 + b) 0

def wordToBytes (w : Nat) : Bytes := [w / 16777216 % 256, w / 65536 % 256, w / 256 % 256, w % 256]

def lenTo8Bytes (n : Nat) : Bytes :=
  [n / 2^56 % 256, n / 2^48 % 256, n / 2^40 % 256, n / 2^32 % 256,
   n / 2^24 % 256, n / 2^16 % 256, n / 2^8 % 256, n % 256]

/-- Merkle-Damgard padding: append 0x80, zeros to 56 mod 64, then the bit
length as a 64-bit big-endian integer. -/
def shaPad (msg : Bytes) : Bytes :=
  msg ++ (128 :: List.replicate ((64 - ((msg.length + 9) % 64)) % 64) 0) ++ lenTo8Bytes (8 * msg.length)

/-- Message schedule: the 16 words of one 64-byte block extended to 64 words. -/
def shaSchedule (block : Bytes) : Array Nat :=
  (List.range 48).foldl
    (fun w _ =>
      let n := w.size
      w.push (add32 (add32 (smallSigma1 w[n-2]!) w[n-7]!) (add32 (smallSigma0 w[n-15]!) w[n-16]!)))
    ((block.toChunks 4).map beWord).toArray

structure Sha256State where
  a : Nat
  b : Nat
  c : Nat
  d : Nat
  e : Nat
  f : Nat
  g : Nat
  h : Nat

def shaRound (w : Array Nat) (st : Sha256State) (i : Nat) : Sha256State :=
  let t1 := add32 (add32 (add32 st.h (bigSigma1 st.e)) (add32 (shaCh st.e st.f st.g) shaK[i]!)) w[i]!
  let t2 := add32 (bigSigma0 st.a) (shaMaj st.a st.b st.c)
  { a := add32 t1 t2, b := st.a, c := st.b, d := st.c,
    e := add32 st.d t1, f := st.e, g := st.f, h := st.g }

def shaCompress (hs : List Nat) (block : Bytes) : List Nat :=
  let w := shaSchedule block
  match hs with
  | [h0, h1, h2, h3, h4, h5, h6, h7] =>
    let st0 : Sha256State := ⟨h0, h1, h2, h3, h4, h5, h6, h7⟩
    let st := (List.range 64).foldl (shaRound w) st0
    [add32 h0 st.a, add32 h1 st.b, add32 h2 st.c, add32 h3 st.d,
     add32 h4 st.e, add32 h5 st.f, add32 h6 st.g, add32 h7 st.h]
  | _ => hs

def sha256 (msg : Bytes) : Bytes :=
  ((((shaPad msg).toChunks 64).foldl shaCompress shaH0).map wordToBytes).flatten

/-- HMAC as implemented by Go `crypto/hmac` for SHA-256 (block size 64). -/
def hmacSha256 (key msg : Bytes) : Bytes :=
  let k0 := if 64 < key.length then sha256 key else key
  let k := k0 ++ List.replicate (64 - k0.length) 0
  let ipad := k.map (fun b => Nat.xor b 0x36)
  let opad := k.map (fun b => Nat.xor b 0x5c)
  sha256 (opad ++ sha256 (ipad ++ msg))

/-! ## Hex and base64 encodings (Go `encoding/hex`, `encoding/base64`) -/

/-- Lowercase hex digit, as produced by Go `hex.Encode`. -/
def hexDigit (n : Nat) : Nat := if n < 10 then 48 + n else 87 + n

def hexEncode (bs : Bytes) : Bytes := bs.flatMap (fun b => [hexDigit (b / 16), hexDigit (b % 16)])

/-- Standard base64 alphabet (Go `base64.StdEncoding`). -/
def b64Char (n : Nat) : Nat :=
  if n < 26 then 65 + n
  else if n < 52 then 97 + (n - 26)
  else if n < 62 then 48 + (n - 52)
  else if n = 62 then 43 else 47

def b64Group (g : Bytes) : Bytes :=
  match g with
  | [a, b, c] => [b64Char (a / 4), b64Char (a % 4 * 16 + b / 16), b64Char (b % 16 * 4 + c / 64), b64Char (c % 64)]
  | [a, b] => [b64Char (a / 4), b64Char (a % 4 * 16 + b / 16), b64Char (b % 16 * 4), 61]
  | [a] => [b64Char (a / 4), b64Char (a % 4 * 16), 61, 61]
  | _ => []

def base64Encode (bs : Bytes) : Bytes := ((bs.toChunks 3).map b64Group).flatten

/-! ## The Rapyd request-signing protocol (`rapyd` package) -/

/-- ASCII lowercasing of a byte string; models the behaviour of Go
`strings.ToLower` on the ASCII inputs (HTTP methods, paths) used here. -/
def goToLower (s : Bytes) : Bytes := s.map (fun b => if 65 ≤ b && b ≤ 90 then b + 32 else b)

/-- The exact byte sequence signed by `generateSignatureWithSalt`:
`strings.ToLower(method) + endpoint + salt + timestamp + accessKey + secretKey + body`. -/
def toSign (accessKey secretKey method endpoint body timestamp salt : Bytes) : Bytes :=
  goToLower method ++ endpoint ++ salt ++ timestamp ++ accessKey ++ secretKey ++ body

/-- `Client.generateSignatureWithSalt`: HMAC-SHA256 of `toSign` keyed by the
secret, hex-encoded, then base64-encoded. -/
def generateSignatureWithSalt (accessKey secretKey method endpoint body timestamp salt : Bytes) : Bytes :=
  base64Encode (hexEncode (hmacSha256 secretKey (toSign accessKey secretKey method endpoint body timestamp salt)))

/-- The body string that `makeRequestRaw` signs: the marshalled JSON payload,
or the empty string when the payload is nil (GET requests). -/
def makeRequestSigningBody (payload : Option Bytes) : Bytes :=
  match payload with
  | some jsonData => jsonData
  | none => []

/-- The signature header value that `makeRequestRaw` attaches to a request. -/
def makeRequestSignature (accessKey secretKey method endpoint : Bytes) (payload : Option Bytes)
    (timestamp salt : Bytes) : Bytes :=
  generateSignatureWithSalt accessKey secretKey method endpoint (makeRequestSigningBody payload) timestamp salt

/-- Spec-side signature, written from the specification text: HMAC-SHA256
keyed by the shared secret over the concatenation of lowercase method, path,
salt, timestamp, access key, secret, and raw body; the digest hex-encoded and
that hex string base64-encoded. Written for comparison with the source-side
`generateSignatureWithSalt`. -/
def specSignature (accessKey secret method path salt timestamp body : Bytes) : Bytes :=
  base64Encode (hexEncode (hmacSha256 secret (goToLower method ++ path ++ salt ++ timestamp ++ accessKey ++ secret ++ body)))

/-! ## Errors -/

/-- A Go `error` value, carrying its message. -/
structure GoErr where
  tag : String
deriving DecidableEq, Repr

/-- Error wrapping, as in `fmt.Errorf("...: %w", err)`. -/
def wrapErr (pre : String) (e : GoErr) : GoErr := ⟨pre ++ e.tag⟩

/-! ## Rapyd currency negotiation (`rapyd.Client.CreateCheckout`) -/

/-- One entry of the provider's payment-method listing; only the fields the
source inspects (`Category`, `Status`) plus identifying ones are modelled. -/
structure PaymentMethodDetails where
  name : String
  methodType : String
  category : String
  status : Int
deriving DecidableEq, Repr

/-- The source's filter inside the negotiation loop:
`method.Category == "card" && method.Status == 1`. -/
def isActiveCard (m : PaymentMethodDetails) : Bool := m.category == "card" && m.status == 1

/-- The ordered candidate settlement countries the source tries for each
requested currency. -/
def countriesToTry : String → List String
  | "USD" => ["GB", "DE", "CA", "AU", "SG"]
  | "EUR" => ["DE", "FR", "IT", "ES", "NL", "BE", "AT", "FI", "IE", "PT", "GR"]
  | "GBP" => ["GB", "IE"]
  | "ILS" => ["IL"]
  | "CAD" => ["CA", "US"]
  | "AUD" => ["AU", "NZ", "US"]
  | "JPY" => ["JP", "US"]
  | "SGD" => ["SG", "MY", "US"]
  | _ => ["US", "GB", "DE", "CA", "AU"]

/-- The empty-currency default at the top of `CreateCheckout`. -/
def requestedCurrency (currency0 : String) : String := if currency0 == "" then "USD" else currency0

/-- The negotiation loop: first country whose payment-method listing succeeds
and contains at least one active card method; countries whose listing errors
are skipped with a warning. -/
def findCardCountry (getPM : String → String → Except GoErr (List PaymentMethodDetails))
    (currency : String) : List String → Option String
  | [] => none
  | c :: rest =>
    match getPM c currency with
    | .error _ => findCardCountry getPM currency rest
    | .ok ms => if (ms.filter isActiveCard).isEmpty then findCardCountry getPM currency rest else some c

/-- Go float-to-int conversion `int(x)`: truncation toward zero, on the exact
rational model of the float arithmetic. -/
def goTruncQ (q : ℚ) : Int := if 0 ≤ q then ⌊q⌋ else ⌈q⌉

/-- The amount/currency/country actually placed in the checkout request:
the loop result if some candidate country has an active card method, else for
USD a probe of DE/EUR (converting the amount at the hard-coded 0.85 rate when
the probe succeeds), else the final fallback DE/EUR with the amount unchanged.
Negotiation is total: it never produces an error. -/
def negotiate (getPM : String → String → Except GoErr (List PaymentMethodDetails))
    (amount : Int) (currency0 : String) : Int × String × String :=
  let currency := requestedCurrency currency0
  match findCardCountry getPM currency (countriesToTry currency) with
  | some c => (amount, currency, c)
  | none =>
    if currency == "USD" then
      match getPM "DE" "EUR" with
      | .ok _ => (goTruncQ ((amount : ℚ) * (85/100)), "EUR", "DE")
      | .error _ => (amount, "EUR", "DE")
    else (amount, "EUR", "DE")

/-- The checkout request assembled by `CreateCheckout` (fields the claims
concern; the metadata carries the customer and purchase references). -/
structure CreateCheckoutRequest where
  amount : Int
  currency : String
  country : String
  description : String
  customerId : String
  purchaseId : String
  merchantReferenceId : String
deriving DecidableEq, Repr

/-- The checkout object returned by the provider (`Data.ID`, `Data.RedirectURL`). -/
structure CheckoutData where
  id : String
  redirectUrl : String
deriving DecidableEq, Repr

def mkCheckoutRequest (amount : Int) (currency country description customerID purchaseID : String) :
    CreateCheckoutRequest :=
  { amount := amount, currency := currency, country := country, description := description,
    customerId := customerID, purchaseId := purchaseID,
    merchantReferenceId := "purchase_" ++ purchaseID }

/-- The HTTP stage of `CreateCheckout`: `makeRequestRaw` plus the non-200 and
JSON-parse handling, collapsed into one oracle call whose failure is wrapped. -/
def checkoutOutcome (http : CreateCheckoutRequest → Except GoErr CheckoutData)
    (req : CreateCheckoutRequest) : Except GoErr CheckoutData :=
  match http req with
  | .error e => .error (wrapErr "failed to make request: " e)
  | .ok d => .ok d

/-- `rapyd.Client.CreateCheckout`: negotiate the settlement country/currency,
then issue the checkout creation request. -/
def rapydCreateCheckout (getPM : String → String → Except GoErr (List PaymentMethodDetails))
    (http : CreateCheckoutRequest → Except GoErr CheckoutData)
    (amount : Int) (currency description customerID purchaseID : String) : Except GoErr CheckoutData :=
  let n := negotiate getPM amount currency
  checkoutOutcome http (mkCheckoutRequest n.1 n.2.1 n.2.2 description customerID purchaseID)

/-! ## Currency conversion (`PaymentService.convertAmountToCurrency`) -/

/-- The static rate table of the source, with the float literals read as exact
decimal rationals (0.85 becomes 85/100, and so on). -/
def rates : List (String × ℚ) :=
  [("USD", 1), ("EUR", 85/100), ("GBP", 75/100), ("ILS", 37/10), ("CAD", 135/100), ("AUD", 15/10),
   ("JPY", 150), ("SGD", 135/100), ("SEK", 105/10), ("NOK", 108/10), ("DKK", 68/10), ("CHF", 9/10),
   ("PLN", 4), ("CZK", 23), ("HUF", 360), ("RON", 46/10), ("BGN", 18/10), ("HRK", 68/10),
   ("MXN", 17), ("BRL", 5), ("ZAR", 18), ("RUB", 75), ("UAH", 36), ("INR", 83),
   ("KRW", 1300), ("TWD", 31), ("THB", 35), ("MYR", 46/10), ("IDR", 15000), ("PHP", 55)]

/-- `convertAmountToCurrency`: look the currency up in the rate table (unknown
currencies fall back to the original amount); currencies without minor units
(JPY, KRW, IDR) truncate the converted amount, all others add 0.5 before
truncating. Arithmetic is the exact rational model of the source's float64. -/
def convertAmountToCurrency (amountUSD : Int) (currency : String) : Int :=
  match rates.lookup currency with
  | none => amountUSD
  | some rate =>
    let convertedAmount : ℚ := (amountUSD : ℚ) * rate
    if currency == "JPY" || currency == "KRW" || currency == "IDR" then goTruncQ convertedAmount
    else goTruncQ (convertedAmount + 1/2)

/-- Spec-side conversion, written from the specification text: currencies with
no fractional minor unit round to the nearest whole unit; all others round
half-up by adding 0.5 before truncation; unknown currencies return the amount
unchanged. Written for comparison with the source-side
`convertAmountToCurrency`. -/
def convertAmountSpec (amountUSD : Int) (currency : String) : Int :=
  match rates.lookup currency with
  | none => amountUSD
  | some rate =>
    if currency == "JPY" || currency == "KRW" || currency == "IDR" then round ((amountUSD : ℚ) * rate)
    else goTruncQ ((amountUSD : ℚ) * rate + 1/2)

/-! ## Rapyd currency configuration (`rapyd.Client.GetOptimalCurrencyConfig`) -/

structure CurrencyConfig where
  country : String
  currency : String
  settlementCurrency : String
deriving DecidableEq, Repr

/-- The country-to-currency map of `GetOptimalCurrencyConfig`. -/
def countryToCurrency : List (String × CurrencyConfig) :=
  [("US", ⟨"US", "USD", "USD"⟩), ("CA", ⟨"CA", "CAD", "USD"⟩), ("GB", ⟨"GB", "GBP", "USD"⟩),
   ("AU", ⟨"AU", "AUD", "USD"⟩), ("NZ", ⟨"NZ", "NZD", "USD"⟩), ("DE", ⟨"DE", "EUR", "USD"⟩),
   ("FR", ⟨"FR", "EUR", "USD"⟩), ("IT", ⟨"IT", "EUR", "USD"⟩), ("ES", ⟨"ES", "EUR", "USD"⟩),
   ("NL", ⟨"NL", "EUR", "USD"⟩), ("BE", ⟨"BE", "EUR", "USD"⟩), ("AT", ⟨"AT", "EUR", "USD"⟩),
   ("FI", ⟨"FI", "EUR", "USD"⟩), ("IE", ⟨"IE", "EUR", "USD"⟩), ("PT", ⟨"PT", "EUR", "USD"⟩),
   ("GR", ⟨"GR", "EUR", "USD"⟩), ("IL", ⟨"IL", "ILS", "USD"⟩), ("JP", ⟨"JP", "JPY", "USD"⟩),
   ("SG", ⟨"SG", "SGD", "USD"⟩), ("HK", ⟨"HK", "HKD", "USD"⟩), ("KR", ⟨"KR", "KRW", "USD"⟩),
   ("TW", ⟨"TW", "TWD", "USD"⟩), ("MY", ⟨"MY", "MYR", "USD"⟩), ("TH", ⟨"TH", "THB", "USD"⟩),
   ("IN", ⟨"IN", "INR", "USD"⟩), ("ID", ⟨"ID", "IDR", "USD"⟩), ("PH", ⟨"PH", "PHP", "USD"⟩),
   ("PL", ⟨"PL", "PLN", "USD"⟩), ("CZ", ⟨"CZ", "CZK", "USD"⟩), ("HU", ⟨"HU", "HUF", "USD"⟩),
   ("RO", ⟨"RO", "RON", "USD"⟩), ("BG", ⟨"BG", "BGN", "USD"⟩), ("HR", ⟨"HR", "HRK", "USD"⟩),
   ("SE", ⟨"SE", "SEK", "USD"⟩), ("NO", ⟨"NO", "NOK", "USD"⟩), ("DK", ⟨"DK", "DKK", "USD"⟩),
   ("IS", ⟨"IS", "ISK", "USD"⟩), ("MX", ⟨"MX", "MXN", "USD"⟩), ("BR", ⟨"BR", "BRL", "USD"⟩),
   ("AR", ⟨"AR", "ARS", "USD"⟩), ("CL", ⟨"CL", "CLP", "USD"⟩), ("CO", ⟨"CO", "COP", "USD"⟩),
   ("PE", ⟨"PE", "PEN", "USD"⟩), ("ZA", ⟨"ZA", "ZAR", "USD"⟩), ("RU", ⟨"RU", "RUB", "USD"⟩),
   ("UA", ⟨"UA", "UAH", "USD"⟩), ("KZ", ⟨"KZ", "KZT", "USD"⟩), ("BY", ⟨"BY", "BYN", "USD"⟩),
   ("MD", ⟨"MD", "MDL", "USD"⟩), ("GE", ⟨"GE", "GEL", "USD"⟩)]

def GetOptimalCurrencyConfig (userCountry : String) : CurrencyConfig :=
  match countryToCurrency.lookup userCountry with
  | some config => config
  | none => ⟨"US", "USD", "USD"⟩

/-- `getUserCountryFromIP`: the source is an acknowledged stub returning "US". -/
def getUserCountryFromIP (_userIP : String) : String := "US"

/-! ## Ledger data model (`database` package records) -/

inductive PurchaseStatus
  | new
  | pending
  | paid
  | cancel
deriving DecidableEq, Repr

inductive InvoiceType
  | crypto
  | yookasa
  | telegram
  | rapyd
deriving DecidableEq, Repr

/-- A purchase-ledger row; the provider-correlation pairs the claims concern
are the Rapyd and crypto ones. -/
structure Purchase where
  id : Int
  customerId : Int
  invoiceType : InvoiceType
  status : PurchaseStatus
  amount : ℚ
  currency : String
  month : Int
  rapydCheckoutId : Option String := none
  rapydUrl : Option String := none
  cryptoInvoiceId : Option Int := none
  cryptoInvoiceUrl : Option String := none
deriving DecidableEq, Repr

structure Customer where
  id : Int
  telegramId : Int
  language : String
  subscriptionLink : Option String := none
  expireAt : Int := 0
deriving DecidableEq, Repr

/-- A referral record: referee and referrer chat ids plus the one-shot
bonus-granted flag. -/
structure Referral where
  id : Int
  refereeId : Int
  referrerId : Int
  bonusGranted : Bool
deriving DecidableEq, Repr

/-- The persisted state the repositories act on. -/
structure DB where
  purchases : List Purchase
  customers : List Customer
  referrals : List Referral
  nextPurchaseId : Int
deriving DecidableEq, Repr

/-! Repository operations. Modelled from the spec: the generic CRUD repository
implementations are outside the embedded sources; only their contracts (find
by key, insert with a fresh id, set the given fields) are specified, and the
definitions below follow those contracts. -/

def DB.findPurchase (db : DB) (pid : Int) : Option Purchase :=
  db.purchases.find? (fun p => p.id == pid)

def DB.findCustomer (db : DB) (cid : Int) : Option Customer :=
  db.customers.find? (fun c => c.id == cid)

def DB.findCustomerByTelegramId (db : DB) (tid : Int) : Option Customer :=
  db.customers.find? (fun c => c.telegramId == tid)

def DB.findReferral (db : DB) (tid : Int) : Option Referral :=
  db.referrals.find? (fun r => r.refereeId == tid)

/-- Modelled from the spec: `PurchaseRepository.Create` inserts the row under
a fresh ledger id and returns that id. -/
def DB.createPurchase (db : DB) (p : Purchase) : Int × DB :=
  (db.nextPurchaseId,
   { db with purchases := { p with id := db.nextPurchaseId } :: db.purchases,
             nextPurchaseId := db.nextPurchaseId + 1 })

/-- Modelled from the spec: `PurchaseRepository.MarkAsPaid` as the atomic
conditional transition of section 5 of the spec — set status Paid where the
id matches and the status is not already Paid. -/
def setPaidIf (pid : Int) (p : Purchase) : Purchase :=
  if p.id == pid && !(p.status == PurchaseStatus.paid) then { p with status := PurchaseStatus.paid } else p

def DB.markAsPaid (db : DB) (pid : Int) : DB :=
  { db with purchases := db.purchases.map (setPaidIf pid) }

/-- Modelled from the spec: `UpdateFields` with the map `{status: Cancel}`
sets exactly that field on the matching row, unconditionally. -/
def setCancel (pid : Int) (p : Purchase) : Purchase :=
  if p.id == pid then { p with status := PurchaseStatus.cancel } else p

def DB.cancelPurchase (db : DB) (pid : Int) : DB :=
  { db with purchases := db.purchases.map (setCancel pid) }

/-- Modelled from the spec: `UpdateFields` with the map `{status: Pending}`. -/
def setPending (pid : Int) (p : Purchase) : Purchase :=
  if p.id == pid then { p with status := PurchaseStatus.pending } else p

def DB.setPendingOnly (db : DB) (pid : Int) : DB :=
  { db with purchases := db.purchases.map (setPending pid) }

/-- Modelled from the spec: `UpdateFields` with the Rapyd correlation pair
plus the Pending transition. -/
def setRapydFields (pid : Int) (checkoutId url : String) (p : Purchase) : Purchase :=
  if p.id == pid then
    { p with rapydCheckoutId := some checkoutId, rapydUrl := some url,
             status := PurchaseStatus.pending }
  else p

def DB.updateRapydFields (db : DB) (pid : Int) (checkoutId url : String) : DB :=
  { db with purchases := db.purchases.map (setRapydFields pid checkoutId url) }

/-- Modelled from the spec: `UpdateFields` with the crypto correlation pair
plus the Pending transition. -/
def setCryptoFields (pid : Int) (invoiceId : Int) (url : String) (p : Purchase) : Purchase :=
  if p.id == pid then
    { p with cryptoInvoiceId := some invoiceId, cryptoInvoiceUrl := some url,
             status := PurchaseStatus.pending }
  else p

def DB.updateCryptoFields (db : DB) (pid : Int) (invoiceId : Int) (url : String) : DB :=
  { db with purchases := db.purchases.map (setCryptoFields pid invoiceId url) }

/-- Modelled from the spec: `CustomerRepository.UpdateFields` with the map
`{subscription_link, expire_at}`. -/
def setCustomerLink (cid : Int) (link : String) (expire : Int) (c : Customer) : Customer :=
  if c.id == cid then { c with subscriptionLink := some link, expireAt := expire } else c

def DB.updateCustomerLink (db : DB) (cid : Int) (link : String) (expire : Int) : DB :=
  { db with customers := db.customers.map (setCustomerLink cid link expire) }

/-- Modelled from the spec: `ReferralRepository.MarkBonusGranted` sets the
bonus-granted flag of the matching referral to true. -/
def setGrantedIf (rid : Int) (r : Referral) : Referral :=
  if r.id == rid then { r with bonusGranted := true } else r

def DB.markBonusGranted (db : DB) (rid : Int) : DB :=
  { db with referrals := db.referrals.map (setGrantedIf rid) }

/-! ## Observable external calls -/

/-- Externally observable side-effect calls made during a run. -/
inductive Ev
  | entitlement (customerId telegramId trafficLimit days : Int)
  | remoteStatus (checkoutId : String)
  | referrerEntitlement (customerId telegramId trafficLimit days : Int)
  | referrerFieldsUpdate (customerId : Int)
  | bonusGranted (referralId : Int)
deriving DecidableEq, Repr

/-- Events belonging to the Referral Credit Engine. -/
def isReferrerEv : Ev → Bool
  | .referrerEntitlement _ _ _ _ => true
  | .referrerFieldsUpdate _ => true
  | .bonusGranted _ => true
  | _ => false

/-- The user object returned by `remnawave.Client.CreateOrUpdateUser`. -/
structure RemnaUser where
  subscriptionUrl : String
  expireAt : Int
deriving DecidableEq, Repr

/-! ## Activation Orchestrator (`PaymentService.ProcessPurchaseById`) -/

/-- Per-invocation outcomes of every fallible call `ProcessPurchaseById`
makes, one field per call site, in program order. -/
structure OrchEnv where
  findPurchaseErr : Option GoErr
  findCustomerErr : Option GoErr
  cacheGet : Int → Option Int
  deleteMessageErr : Option GoErr
  trafficLimit : Int
  createOrUpdateUser : Int → Int → Int → Int → Except GoErr RemnaUser
  markAsPaidErr : Option GoErr
  updateCustomerErr : Option GoErr
  sendMessageErr : Option GoErr
  findByRefereeErr : Option GoErr
  findReferrerCustomerErr : Option GoErr
  referralDays : Int
  referrerCreateOrUpdateUser : Int → Int → Int → Int → Except GoErr RemnaUser
  referrerUpdateErr : Option GoErr
  markBonusGrantedErr : Option GoErr

/-- The Referral Credit Engine: the tail of `ProcessPurchaseById` from
`FindByReferee` on, returning its own new events. On a repository error the
referral record comes back nil alongside the error; the source checks
`referee == nil` and `referee.BonusGranted` before the error, and ignores the
error of the final referrer notification. A nil referrer customer would be a
nil dereference in the source; it is modelled as an error outcome. -/
def processReferral (env : OrchEnv) (db : DB) (customer : Customer) :
    Option GoErr × DB × List Ev :=
  let referralOpt : Option Referral :=
    match env.findByRefereeErr with
    | some _ => none
    | none => db.findReferral customer.telegramId
  match referralOpt with
  | none => (none, db, [])
  | some referral =>
    if referral.bonusGranted then (none, db, [])
    else
      match env.findByRefereeErr with
      | some e => (some e, db, [])
      | none =>
        match env.findReferrerCustomerErr with
        | some e => (some e, db, [])
        | none =>
          match db.findCustomerByTelegramId referral.referrerId with
          | none => (some ⟨"referrer customer is nil"⟩, db, [])
          | some refCust =>
            match env.referrerCreateOrUpdateUser refCust.id refCust.telegramId env.trafficLimit env.referralDays with
            | .error e => (some e, db,
                [Ev.referrerEntitlement refCust.id refCust.telegramId env.trafficLimit env.referralDays])
            | .ok ru =>
              match env.referrerUpdateErr with
              | some e => (some e, db,
                  [Ev.referrerEntitlement refCust.id refCust.telegramId env.trafficLimit env.referralDays])
              | none =>
                let db1 := db.updateCustomerLink refCust.id ru.subscriptionUrl ru.expireAt
                match env.markBonusGrantedErr with
                | some e => (some e, db1,
                    [Ev.referrerEntitlement refCust.id refCust.telegramId env.trafficLimit env.referralDays,
                     Ev.referrerFieldsUpdate refCust.id])
                | none =>
                  let db2 := db1.markBonusGranted referral.id
                  (none, db2,
                   [Ev.referrerEntitlement refCust.id refCust.telegramId env.trafficLimit env.referralDays,
                    Ev.referrerFieldsUpdate refCust.id,
                    Ev.bonusGranted referral.id])

/-- `PaymentService.ProcessPurchaseById`: load purchase and customer (NotFound
aborts); best-effort delete of the cached prompt message (failure logged only,
no branch); extend the customer's entitlement by `month*30` days; mark the
purchase Paid; persist the new link/expiry; notify; then attempt referral
crediting. There is no check of the purchase's current status anywhere on
this path. -/
def ProcessPurchaseById (env : OrchEnv) (db : DB) (purchaseId : Int) :
    Option GoErr × DB × List Ev :=
  match env.findPurchaseErr with
  | some e => (some e, db, [])
  | none =>
    match db.findPurchase purchaseId with
    | none => (some ⟨"purchase not found"⟩, db, [])
    | some purchase =>
      match env.findCustomerErr with
      | some e => (some e, db, [])
      | none =>
        match db.findCustomer purchase.customerId with
        | none => (some ⟨"customer not found"⟩, db, [])
        | some customer =>
          match env.createOrUpdateUser customer.id customer.telegramId env.trafficLimit (purchase.month * 30) with
          | .error e => (some e, db,
              [Ev.entitlement customer.id customer.telegramId env.trafficLimit (purchase.month * 30)])
          | .ok user =>
            let evs := [Ev.entitlement customer.id customer.telegramId env.trafficLimit (purchase.month * 30)]
            match env.markAsPaidErr with
            | some e => (some e, db, evs)
            | none =>
              let db1 := db.markAsPaid purchase.id
              match env.updateCustomerErr with
              | some e => (some e, db1, evs)
              | none =>
                let db2 := db1.updateCustomerLink customer.id user.subscriptionUrl user.expireAt
                match env.sendMessageErr with
                | some e => (some e, db2, evs)
                | none =>
                  match processReferral env db2 customer with
                  | (res, db3, revs) => (res, db3, evs ++ revs)

/-! ## Explicit cancel (`PaymentService.CancelPayment`) -/

structure CancelEnv where
  findErr : Option GoErr
  updateErr : Option GoErr

/-- `PaymentService.CancelPayment`: load the purchase (NotFound aborts), then
set its status to Cancel via `UpdateFields` — with no check of the current
status. -/
def CancelPayment (env : CancelEnv) (db : DB) (purchaseId : Int) : Option GoErr × DB :=
  match env.findErr with
  | some e => (some e, db)
  | none =>
    match db.findPurchase purchaseId with
    | none => (some ⟨"purchase not found"⟩, db)
    | some _ =>
      match env.updateErr with
      | some e => (some e, db)
      | none => (none, db.cancelPurchase purchaseId)

/-! ## Polling reconciler (`PaymentService.CheckRapydPaymentStatus`) -/

/-- The embedded payment object of a checkout-status response. -/
structure CheckoutPaymentInfo where
  status : String
deriving DecidableEq, Repr

/-- The data of a `GetCheckoutStatus` response. -/
structure CheckoutStatusData where
  status : String
  payment : Option CheckoutPaymentInfo
deriving DecidableEq, Repr

/-- The source's paid classification: top-level status "COMPLETED", or an
embedded payment whose status is "CLO". -/
def rapydPaidClass (st : CheckoutStatusData) : Bool :=
  st.status == "COMPLETED" ||
    (match st.payment with
     | some p => p.status == "CLO"
     | none => false)

structure CheckEnv where
  findErr : Option GoErr
  getCheckoutStatus : String → Except GoErr CheckoutStatusData
  orch : OrchEnv

/-- `PaymentService.CheckRapydPaymentStatus`: load the purchase; reject a
non-Rapyd invoice type; short-circuit `(true, nil)` if already Paid; reject a
missing or empty checkout id; poll the remote status; classify; on paid run
the Activation Orchestrator and return its outcome, otherwise `(false, nil)`. -/
def CheckRapydPaymentStatus (env : CheckEnv) (db : DB) (purchaseId : Int) :
    (Bool × Option GoErr) × DB × List Ev :=
  match env.findErr with
  | some e => ((false, some (wrapErr "failed to find purchase: " e)), db, [])
  | none =>
    match db.findPurchase purchaseId with
    | none => ((false, some ⟨"purchase not found"⟩), db, [])
    | some purchase =>
      if purchase.invoiceType != InvoiceType.rapyd then
        ((false, some ⟨"purchase is not a Rapyd payment"⟩), db, [])
      else if purchase.status == PurchaseStatus.paid then
        ((true, none), db, [])
      else
        match purchase.rapydCheckoutId with
        | none => ((false, some ⟨"purchase has no Rapyd checkout ID"⟩), db, [])
        | some checkoutId =>
          if checkoutId == "" then
            ((false, some ⟨"purchase has no Rapyd checkout ID"⟩), db, [])
          else
            match env.getCheckoutStatus checkoutId with
            | .error e => ((false, some (wrapErr "failed to get checkout status: " e)), db,
                [Ev.remoteStatus checkoutId])
            | .ok st =>
              if rapydPaidClass st then
                match ProcessPurchaseById env.orch db purchaseId with
                | (some e, db1, evs) =>
                    ((false, some (wrapErr "failed to process purchase: " e)), db1,
                     Ev.remoteStatus checkoutId :: evs)
                | (none, db1, evs) => ((true, none), db1, Ev.remoteStatus checkoutId :: evs)
              else ((false, none), db, [Ev.remoteStatus checkoutId])

/-! ## Provider adapters (`createCryptoInvoice`, `createTelegramInvoice`,
`createRapydInvoice`) -/

/-- The invoice object returned by `cryptopay.Client.CreateInvoice`. -/
structure CryptoInvoice where
  invoiceId : Int
  botInvoiceUrl : String
deriving DecidableEq, Repr

structure CryptoEnv where
  createErr : Option GoErr
  createInvoice : Except GoErr CryptoInvoice
  updateErr : Option GoErr

/-- `createCryptoInvoice`: insert a New USD row; create the remote invoice
(failure leaves the row New and returns the error); persist the correlation
pair and the Pending transition (failure returns the error). -/
def createCryptoInvoice (env : CryptoEnv) (db : DB) (amount months : Int) (customer : Customer) :
    (String × Int × Option GoErr) × DB :=
  match env.createErr with
  | some e => (("", 0, some e), db)
  | none =>
    match db.createPurchase
        { id := 0, customerId := customer.id, invoiceType := InvoiceType.crypto,
          status := PurchaseStatus.new, amount := (amount : ℚ), currency := "USD",
          month := months } with
    | (purchaseId, db1) =>
      match env.createInvoice with
      | .error e => (("", 0, some e), db1)
      | .ok invoice =>
        match env.updateErr with
        | some e => (("", 0, some e), db1)
        | none =>
          ((invoice.botInvoiceUrl, purchaseId, none),
           db1.updateCryptoFields purchaseId invoice.invoiceId invoice.botInvoiceUrl)

structure TelegramEnv where
  createErr : Option GoErr
  createInvoiceLink : Except GoErr String
  updateErr : Option GoErr

/-- `createTelegramInvoice`: insert a New STARS row (on a row-creation error
the source returns `"", 0, nil` — a nil error); call `CreateInvoiceLink`,
whose error the source discards (on failure the url is the zero value "");
then unconditionally set the row Pending and return a nil error on success of
that update. -/
def createTelegramInvoice (env : TelegramEnv) (db : DB) (amount months : Int) (customer : Customer) :
    (String × Int × Option GoErr) × DB :=
  match env.createErr with
  | some _ => (("", 0, none), db)
  | none =>
    match db.createPurchase
        { id := 0, customerId := customer.id, invoiceType := InvoiceType.telegram,
          status := PurchaseStatus.new, amount := (amount : ℚ), currency := "STARS",
          month := months } with
    | (purchaseId, db1) =>
      let invoiceUrl :=
        match env.createInvoiceLink with
        | .ok u => u
        | .error _ => ""
      match env.updateErr with
      | some e => (("", 0, some e), db1)
      | none => ((invoiceUrl, purchaseId, none), db1.setPendingOnly purchaseId)

structure RapydEnv where
  createErr : Option GoErr
  getPM : String → String → Except GoErr (List PaymentMethodDetails)
  http : CreateCheckoutRequest → Except GoErr CheckoutData
  updateErr : Option GoErr

/-- `getOptimalCurrencyForUser`: country from the IP stub, then the currency
of its configuration. -/
def getOptimalCurrencyForUser (_customer : Customer) : String :=
  (GetOptimalCurrencyConfig (getUserCountryFromIP "")).currency

/-- `createRapydInvoice` (the variant with display-currency conversion):
insert a New row with Currency "USD" and the original Amount; compute the
user's display currency and the converted amount; create the remote checkout
with those; persist the Rapyd correlation pair and the Pending transition.
Neither the conversion nor the negotiation touches the row's Amount or
Currency fields. -/
def createRapydInvoice (env : RapydEnv) (db : DB) (amount months : Int) (customer : Customer) :
    (String × Int × Option GoErr) × DB :=
  match env.createErr with
  | some e => (("", 0, some e), db)
  | none =>
    match db.createPurchase
        { id := 0, customerId := customer.id, invoiceType := InvoiceType.rapyd,
          status := PurchaseStatus.new, amount := (amount : ℚ), currency := "USD",
          month := months } with
    | (purchaseId, db1) =>
      let currency := getOptimalCurrencyForUser customer
      let finalAmount := convertAmountToCurrency amount currency
      match rapydCreateCheckout env.getPM env.http finalAmount currency
          ("Subscription for " ++ toString months ++ " month(s)")
          (toString customer.id) (toString purchaseId) with
      | .error e => (("", 0, some e), db1)
      | .ok checkoutData =>
        match env.updateErr with
        | some e => (("", 0, some e), db1)
        | none =>
          ((checkoutData.redirectUrl, purchaseId, none),
           db1.updateRapydFields purchaseId checkoutData.id checkoutData.redirectUrl)

/-! ## Concrete fixtures for witnesses and counterexamples -/

def okUser : RemnaUser := ⟨"https://sub.example/u1", 1700000000⟩

def orchEnvOk : OrchEnv :=
  { findPurchaseErr := none, findCustomerErr := none,
    cacheGet := fun _ => none, deleteMessageErr := none,
    trafficLimit := 99,
    createOrUpdateUser := fun _ _ _ _ => .ok okUser,
    markAsPaidErr := none, updateCustomerErr := none, sendMessageErr := none,
    findByRefereeErr := none, findReferrerCustomerErr := none,
    referralDays := 7,
    referrerCreateOrUpdateUser := fun _ _ _ _ => .ok okUser,
    referrerUpdateErr := none, markBonusGrantedErr := none }

def custA : Customer := { id := 10, telegramId := 100, language := "en" }

def paidRapydPurchase : Purchase :=
  { id := 1, customerId := 10, invoiceType := InvoiceType.rapyd, status := PurchaseStatus.paid,
    amount := 5, currency := "USD", month := 1,
    rapydCheckoutId := some "chk_1", rapydUrl := some "https://pay.example/1" }

def dbPaid : DB :=
  { purchases := [paidRapydPurchase], customers := [custA], referrals := [], nextPurchaseId := 2 }

def checkEnvW : CheckEnv :=
  { findErr := none, getCheckoutStatus := fun _ => .error ⟨"remote unavailable"⟩, orch := orchEnvOk }

def cancelEnvOk : CancelEnv := { findErr := none, updateErr := none }

def dbEmpty : DB := { purchases := [], customers := [], referrals := [], nextPurchaseId := 1 }

def telegramEnvFail : TelegramEnv :=
  { createErr := none, createInvoiceLink := .error ⟨"telegram: invoice link failed"⟩,
    updateErr := none }

def cryptoEnvFail : CryptoEnv :=
  { createErr := none, createInvoice := .error ⟨"cryptopay: create invoice failed"⟩,
    updateErr := none }

def pendingRapydPurchase : Purchase :=
  { id := 1, customerId := 10, invoiceType := InvoiceType.rapyd, status := PurchaseStatus.pending,
    amount := 5, currency := "USD", month := 1,
    rapydCheckoutId := some "chk_1", rapydUrl := some "https://pay.example/1" }

def referrerCust : Customer := { id := 20, telegramId := 200, language := "en" }

def grantedReferral : Referral :=
  { id := 50, refereeId := 100, referrerId := 200, bonusGranted := true }

def dbGranted : DB :=
  { purchases := [pendingRapydPurchase], customers := [custA, referrerCust],
    referrals := [grantedReferral], nextPurchaseId := 2 }

def getPMfail : String → String → Except GoErr (List PaymentMethodDetails) :=
  fun _ _ => .error ⟨"payment methods unavailable"⟩

def httpOkW : CreateCheckoutRequest → Except GoErr CheckoutData :=
  fun _ => .ok ⟨"chk_7", "https://pay.example/7"⟩

def rapydEnvW : RapydEnv :=
  { createErr := none, getPM := getPMfail, http := httpOkW, updateErr := none }

def qC10 : Purchase :=
  { id := 1, customerId := 10, invoiceType := InvoiceType.rapyd, status := PurchaseStatus.pending,
    amount := 500, currency := "USD", month := 1,
    rapydCheckoutId := some "chk_7", rapydUrl := some "https://pay.example/7" }

/-! ## Helper lemmas -/

/-! Helper lemmas -/

theorem find?_map_pred {α : Type} (f : α → α) (p : α → Bool) (hf : ∀ a, p (f a) = p a) (l : List α) :
    (l.map f).find? p = (l.find? p).map f := by
  rw [List.find?_map]
  have hpf : p ∘ f = p := funext hf
  rw [hpf]

theorem setPaidIf_id (pid : Int) (p : Purchase) : (setPaidIf pid p).id = p.id := by
  unfold setPaidIf; split <;> rfl

theorem setCancel_id (pid : Int) (p : Purchase) : (setCancel pid p).id = p.id := by
  unfold setCancel; split <;> rfl

theorem setRapydFields_id (pid : Int) (c u : String) (p : Purchase) :
    (setRapydFields pid c u p).id = p.id := by
  unfold setRapydFields; split <;> rfl

theorem setGrantedIf_refereeId (rid : Int) (r : Referral) :
    (setGrantedIf rid r).refereeId = r.refereeId := by
  unfold setGrantedIf; split <;> rfl

theorem markAsPaid_findPurchase (db : DB) (pid q : Int) :
    (db.markAsPaid pid).findPurchase q = (db.findPurchase q).map (setPaidIf pid) := by
  unfold DB.markAsPaid DB.findPurchase
  exact find?_map_pred _ _ (fun a => by rw [setPaidIf_id]) _

theorem cancelPurchase_findPurchase (db : DB) (pid q : Int) :
    (db.cancelPurchase pid).findPurchase q = (db.findPurchase q).map (setCancel pid) := by
  unfold DB.cancelPurchase DB.findPurchase
  exact find?_map_pred _ _ (fun a => by rw [setCancel_id]) _

theorem updateRapydFields_findPurchase (db : DB) (pid : Int) (c u : String) (q : Int) :
    (db.updateRapydFields pid c u).findPurchase q = (db.findPurchase q).map (setRapydFields pid c u) := by
  unfold DB.updateRapydFields DB.findPurchase
  exact find?_map_pred _ _ (fun a => by rw [setRapydFields_id]) _

theorem map_setGrantedIf_find (l : List Referral) (rid tid : Int) :
    (l.map (setGrantedIf rid)).find? (fun r => r.refereeId == tid) =
      (l.find? (fun r => r.refereeId == tid)).map (setGrantedIf rid) :=
  find?_map_pred _ _ (fun a => by rw [setGrantedIf_refereeId]) _

/-- Combined frame fact for one run of the Referral Credit Engine: the
purchase ledger is untouched, and the referral table is either untouched or
has exactly one bonus-granted flag set. -/
theorem processReferral_state (env : OrchEnv) (db : DB) (customer : Customer) :
    (processReferral env db customer).2.1.purchases = db.purchases ∧
    ((processReferral env db customer).2.1.referrals = db.referrals ∨
     ∃ rid, (processReferral env db customer).2.1.referrals = db.referrals.map (setGrantedIf rid)) := by
  unfold processReferral
  cases hfr : env.findByRefereeErr with
  | some e => exact ⟨rfl, Or.inl rfl⟩
  | none =>
    dsimp only
    cases hR : db.findReferral customer.telegramId with
    | none => exact ⟨rfl, Or.inl rfl⟩
    | some r =>
      dsimp only
      cases hb : r.bonusGranted with
      | true => exact ⟨rfl, Or.inl rfl⟩
      | false =>
        try dsimp only
        cases h2 : env.findReferrerCustomerErr with
        | some e => exact ⟨rfl, Or.inl rfl⟩
        | none =>
          dsimp only
          cases h3 : db.findCustomerByTelegramId r.referrerId with
          | none => exact ⟨rfl, Or.inl rfl⟩
          | some rc =>
            dsimp only
            cases h4 : env.referrerCreateOrUpdateUser rc.id rc.telegramId env.trafficLimit env.referralDays with
            | error e => exact ⟨rfl, Or.inl rfl⟩
            | ok ru =>
              dsimp only
              cases h5 : env.referrerUpdateErr with
              | some e => exact ⟨rfl, Or.inl rfl⟩
              | none =>
                dsimp only
                cases h6 : env.markBonusGrantedErr with
                | some e => exact ⟨rfl, Or.inl rfl⟩
                | none => exact ⟨rfl, Or.inr ⟨r.id, rfl⟩⟩

/-- The Referral Credit Engine is a no-op producing no error and no events
when the referral's bonus-granted flag is already set. -/
theorem processReferral_granted (env : OrchEnv) (db : DB) (customer : Customer) (r : Referral)
    (hfr : env.findByRefereeErr = none)
    (hR : db.findReferral customer.telegramId = some r)
    (hb : r.bonusGranted = true) :
    processReferral env db customer = (none, db, []) := by
  unfold processReferral
  simp only [hfr, hR, hb, if_true]

/-- Combined frame fact for one run of the Activation Orchestrator. -/
theorem ProcessPurchaseById_state (env : OrchEnv) (db : DB) (pid : Int) :
    ((ProcessPurchaseById env db pid).2.1.purchases = db.purchases ∨
     ∃ x, db.findPurchase pid = some x ∧
       (ProcessPurchaseById env db pid).2.1.purchases = (db.markAsPaid x.id).purchases) ∧
    ((ProcessPurchaseById env db pid).2.1.referrals = db.referrals ∨
     ∃ rid, (ProcessPurchaseById env db pid).2.1.referrals = db.referrals.map (setGrantedIf rid)) := by
  unfold ProcessPurchaseById
  cases h1 : env.findPurchaseErr with
  | some e => exact ⟨Or.inl rfl, Or.inl rfl⟩
  | none =>
    dsimp only
    cases h2 : db.findPurchase pid with
    | none => exact ⟨Or.inl rfl, Or.inl rfl⟩
    | some purchase =>
      dsimp only
      cases h3 : env.findCustomerErr with
      | some e => exact ⟨Or.inl rfl, Or.inl rfl⟩
      | none =>
        dsimp only
        cases h4 : db.findCustomer purchase.customerId with
        | none => exact ⟨Or.inl rfl, Or.inl rfl⟩
        | some customer =>
          dsimp only
          cases h5 : env.createOrUpdateUser customer.id customer.telegramId env.trafficLimit (purchase.month * 30) with
          | error e => exact ⟨Or.inl rfl, Or.inl rfl⟩
          | ok user =>
            dsimp only
            cases h6 : env.markAsPaidErr with
            | some e => exact ⟨Or.inl rfl, Or.inl rfl⟩
            | none =>
              dsimp only
              cases h7 : env.updateCustomerErr with
              | some e => exact ⟨Or.inr ⟨purchase, rfl, rfl⟩, Or.inl rfl⟩
              | none =>
                dsimp only
                cases h8 : env.sendMessageErr with
                | some e => exact ⟨Or.inr ⟨purchase, rfl, rfl⟩, Or.inl rfl⟩
                | none =>
                  dsimp only
                  rcases hpr : processReferral env
                      ((db.markAsPaid purchase.id).updateCustomerLink customer.id user.subscriptionUrl user.expireAt)
                      customer with ⟨res, db3, revs⟩
                  have hst := processReferral_state env
                      ((db.markAsPaid purchase.id).updateCustomerLink customer.id user.subscriptionUrl user.expireAt)
                      customer
                  rw [hpr] at hst
                  simp only [hpr]
                  exact ⟨Or.inr ⟨purchase, rfl, hst.1⟩, hst.2⟩

/- extra small lemmas -/

theorem setPaidIf_paid (pid : Int) (p : Purchase) (h : p.status = PurchaseStatus.paid) :
    setPaidIf pid p = p := by
  unfold setPaidIf
  simp [h]

theorem setGrantedIf_mono (rid : Int) (r : Referral) (h : r.bonusGranted = true) :
    (setGrantedIf rid r).bonusGranted = true := by
  unfold setGrantedIf; split <;> simp [h]

theorem setRapydFields_currency (pid : Int) (c u : String) (p : Purchase) :
    (setRapydFields pid c u p).currency = p.currency := by
  unfold setRapydFields; split <;> rfl

theorem setRapydFields_amount (pid : Int) (c u : String) (p : Purchase) :
    (setRapydFields pid c u p).amount = p.amount := by
  unfold setRapydFields; split <;> rfl

theorem findPurchase_ext (db1 db2 : DB) (h : db1.purchases = db2.purchases) (q : Int) :
    db1.findPurchase q = db2.findPurchase q := by
  unfold DB.findPurchase; rw [h]

theorem findReferral_ext (db1 db2 : DB) (h : db1.referrals = db2.referrals) (t : Int) :
    db1.findReferral t = db2.findReferral t := by
  unfold DB.findReferral; rw [h]

/- the paid short-circuit of the polling reconciler -/

theorem checkRapyd_paid (env : CheckEnv) (db : DB) (pid : Int) (p : Purchase)
    (h1 : env.findErr = none) (h2 : db.findPurchase pid = some p)
    (h3 : p.invoiceType = InvoiceType.rapyd) (h4 : p.status = PurchaseStatus.paid) :
    CheckRapydPaymentStatus env db pid = ((true, none), db, []) := by
  unfold CheckRapydPaymentStatus
  rw [h1]
  dsimp only
  rw [h2]
  dsimp only
  simp [h3, h4]

/- the orchestrator issues the entitlement call first, with no status check -/

theorem ProcessPurchaseById_entitlement_head (env : OrchEnv) (db : DB) (pid : Int)
    (p : Purchase) (c : Customer)
    (h1 : env.findPurchaseErr = none) (h2 : db.findPurchase pid = some p)
    (h3 : env.findCustomerErr = none) (h4 : db.findCustomer p.customerId = some c) :
    (ProcessPurchaseById env db pid).2.2.head? =
      some (Ev.entitlement c.id c.telegramId env.trafficLimit (p.month * 30)) := by
  unfold ProcessPurchaseById
  rw [h1]; dsimp only
  rw [h2]; dsimp only
  rw [h3]; dsimp only
  rw [h4]; dsimp only
  cases h5 : env.createOrUpdateUser c.id c.telegramId env.trafficLimit (p.month * 30) with
  | error e => rfl
  | ok user =>
    dsimp only
    cases h6 : env.markAsPaidErr with
    | some e => rfl
    | none =>
      dsimp only
      cases h7 : env.updateCustomerErr with
      | some e => rfl
      | none =>
        dsimp only
        cases h8 : env.sendMessageErr with
        | some e => rfl
        | none =>
          dsimp only
          rcases hpr : processReferral env
              ((db.markAsPaid p.id).updateCustomerLink c.id user.subscriptionUrl user.expireAt) c
            with ⟨res, db3, revs⟩
          simp only [hpr]
          rfl

/- the orchestrator leaves a paid row paid -/

theorem ProcessPurchaseById_paid_preserved (env : OrchEnv) (db : DB) (pid : Int)
    (p q : Purchase) (hp : db.findPurchase pid = some p) (hpaid : p.status = PurchaseStatus.paid)
    (hq : (ProcessPurchaseById env db pid).2.1.findPurchase pid = some q) :
    q.status = PurchaseStatus.paid := by
  rcases (ProcessPurchaseById_state env db pid).1 with hsame | ⟨x, hx, hmap⟩
  · rw [findPurchase_ext _ db hsame pid, hp] at hq
    injection hq with h
    rw [← h]
    exact hpaid
  · have hxp : x = p := by
      rw [hp] at hx
      injection hx with h
      exact h.symm
    subst hxp
    rw [findPurchase_ext _ (db.markAsPaid x.id) hmap pid, markAsPaid_findPurchase, hp] at hq
    rw [Option.map_some'] at hq
    rw [setPaidIf_paid x.id x hpaid] at hq
    injection hq with h
    rw [← h]
    exact hpaid

/- the cancel path sets Cancel unconditionally -/

theorem CancelPayment_sets_cancel (env : CancelEnv) (db : DB) (pid : Int) (p : Purchase)
    (h1 : env.findErr = none) (h2 : env.updateErr = none) (hp : db.findPurchase pid = some p) :
    ∃ q, (CancelPayment env db pid).2.findPurchase pid = some q ∧
      q.status = PurchaseStatus.cancel := by
  unfold CancelPayment
  rw [h1]; dsimp only
  rw [hp]; dsimp only
  rw [h2]; dsimp only
  refine ⟨setCancel pid p, ?_, ?_⟩
  · rw [cancelPurchase_findPurchase, hp]
    rfl
  · have hp2 : db.purchases.find? (fun x => x.id == pid) = some p := hp
    have hid0 := List.find?_some hp2
    have hid : (p.id == pid) = true := hid0
    unfold setCancel
    rw [hid]
    rfl

/- the flag-true second activation is a referral no-op -/

theorem ProcessPurchaseById_granted_noop (env : OrchEnv) (db : DB) (pid : Int)
    (p : Purchase) (c : Customer) (r : Referral)
    (hp : db.findPurchase pid = some p) (hc : db.findCustomer p.customerId = some c)
    (hfr : env.findByRefereeErr = none) (hr : db.findReferral c.telegramId = some r)
    (hflag : r.bonusGranted = true) :
    (ProcessPurchaseById env db pid).2.1.referrals = db.referrals ∧
    (ProcessPurchaseById env db pid).2.2.filter isReferrerEv = [] := by
  unfold ProcessPurchaseById
  cases h1 : env.findPurchaseErr with
  | some e => exact ⟨rfl, rfl⟩
  | none =>
    dsimp only
    rw [hp]; dsimp only
    cases h3 : env.findCustomerErr with
    | some e => exact ⟨rfl, rfl⟩
    | none =>
      dsimp only
      rw [hc]; dsimp only
      cases h5 : env.createOrUpdateUser c.id c.telegramId env.trafficLimit (p.month * 30) with
      | error e => exact ⟨rfl, rfl⟩
      | ok user =>
        dsimp only
        cases h6 : env.markAsPaidErr with
        | some e => exact ⟨rfl, rfl⟩
        | none =>
          dsimp only
          cases h7 : env.updateCustomerErr with
          | some e => exact ⟨rfl, rfl⟩
          | none =>
            dsimp only
            cases h8 : env.sendMessageErr with
            | some e => exact ⟨rfl, rfl⟩
            | none =>
              dsimp only
              have hr2 : ((db.markAsPaid p.id).updateCustomerLink c.id user.subscriptionUrl user.expireAt).findReferral c.telegramId = some r := hr
              rw [processReferral_granted env _ c r hfr hr2 hflag]
              exact ⟨rfl, rfl⟩

/- bonus-granted monotonicity across a run of the orchestrator -/

theorem ProcessPurchaseById_flag_monotone (env : OrchEnv) (db : DB) (pid tid : Int)
    (r : Referral) (hr : db.findReferral tid = some r) (hflag : r.bonusGranted = true) :
    ∃ r2, (ProcessPurchaseById env db pid).2.1.findReferral tid = some r2 ∧
      r2.bonusGranted = true := by
  rcases (ProcessPurchaseById_state env db pid).2 with hsame | ⟨rid, hmapped⟩
  · exact ⟨r, by rw [findReferral_ext _ db hsame tid]; exact hr, hflag⟩
  · refine ⟨setGrantedIf rid r, ?_, setGrantedIf_mono rid r hflag⟩
    have : (ProcessPurchaseById env db pid).2.1.findReferral tid =
        (db.referrals.map (setGrantedIf rid)).find? (fun x => x.refereeId == tid) := by
      unfold DB.findReferral
      rw [hmapped]
    rw [this, map_setGrantedIf_find]
    unfold DB.findReferral at hr
    rw [hr]
    rfl

/-! ## Reference test vectors for the embedded primitives -/

set_option maxRecDepth 100000 in
theorem sha256_vector_abc :
    hexEncode (sha256 (asciiBytes "abc")) =
      asciiBytes "ba7816bf8f01cfea414140de5dae2223b00361a396177a9cb410ff61f20015ad" := by decide

set_option maxRecDepth 100000 in
theorem sha256_vector_empty :
    hexEncode (sha256 []) =
      asciiBytes "e3b0c44298fc1c149afbf4c8996fb92427ae41e4649b934ca495991b7852b855" := by decide

theorem base64_vector : base64Encode (asciiBytes "light wo") = asciiBytes "bGlnaHQgd28=" := by decide

theorem hex_vector : hexEncode [0, 15, 255] = asciiBytes "000fff" := by decide

set_option maxRecDepth 200000 in
theorem hmac_vector :
    hexEncode (hmacSha256 (asciiBytes "key") (asciiBytes "The quick brown fox jumps over the lazy dog")) =
      asciiBytes "f7bc83f430538424b13298e6aa6fb143ef4d59a14946175997479dbc2d1a3cd8" := by decide

/-! ## Claims -/

/-- C1 (amended): re-invoking activation through the polling reconciler
`CheckRapydPaymentStatus` on a purchase already Paid performs zero additional
entitlement-extension calls and returns (true, nil) with no remote call; the
Paid check lives in that caller, not in the orchestrator — whenever purchase
and customer load, `ProcessPurchaseById` itself issues the entitlement call
first, unconditionally, before `MarkAsPaid` and with no status check. -/
theorem claim_C1 :
    (∀ (env : CheckEnv) (db : DB) (pid : Int) (p : Purchase),
       env.findErr = none → db.findPurchase pid = some p →
       p.invoiceType = InvoiceType.rapyd → p.status = PurchaseStatus.paid →
       CheckRapydPaymentStatus env db pid = ((true, none), db, [])) ∧
    (∀ (env : OrchEnv) (db : DB) (pid : Int) (p : Purchase) (c : Customer),
       env.findPurchaseErr = none → db.findPurchase pid = some p →
       env.findCustomerErr = none → db.findCustomer p.customerId = some c →
       (ProcessPurchaseById env db pid).2.2.head? =
         some (Ev.entitlement c.id c.telegramId env.trafficLimit (p.month * 30))) :=
  ⟨checkRapyd_paid, ProcessPurchaseById_entitlement_head⟩

theorem claim_C1_witness :
    CheckRapydPaymentStatus checkEnvW dbPaid 1 = ((true, none), dbPaid, []) ∧
    (ProcessPurchaseById orchEnvOk dbPaid 1).2.2.head? = some (Ev.entitlement 10 100 99 30) :=
  ⟨claim_C1.1 checkEnvW dbPaid 1 paidRapydPurchase rfl (by decide) rfl rfl,
   claim_C1.2 orchEnvOk dbPaid 1 paidRapydPurchase custA rfl (by decide) rfl (by decide)⟩

/-- C1 counterexample: on a purchase already in status Paid, invoking
`ProcessPurchaseById` directly performs one entitlement-extension call — the
orchestrator does not check or set the Paid state before issuing it. -/
theorem claim_C1_counterexample :
    dbPaid.findPurchase 1 = some paidRapydPurchase ∧
    paidRapydPurchase.status = PurchaseStatus.paid ∧
    (ProcessPurchaseById orchEnvOk dbPaid 1).2.2 = [Ev.entitlement 10 100 99 30] := by
  refine ⟨by decide, rfl, by decide⟩

/-- C2 (amended): a Paid purchase keeps status Paid through
`ProcessPurchaseById` (MarkAsPaid is the conditional transition) and through
`CheckRapydPaymentStatus` (which leaves the ledger untouched), but
`CancelPayment` sets status Cancel for any found purchase unconditionally —
including one already Paid; the terminal-state invariant is not enforced on
the explicit-cancel path. -/
theorem claim_C2 :
    (∀ (env : OrchEnv) (db : DB) (pid : Int) (p q : Purchase),
       db.findPurchase pid = some p → p.status = PurchaseStatus.paid →
       (ProcessPurchaseById env db pid).2.1.findPurchase pid = some q →
       q.status = PurchaseStatus.paid) ∧
    (∀ (env : CheckEnv) (db : DB) (pid : Int) (p : Purchase),
       env.findErr = none → db.findPurchase pid = some p →
       p.invoiceType = InvoiceType.rapyd → p.status = PurchaseStatus.paid →
       (CheckRapydPaymentStatus env db pid).2.1 = db) ∧
    (∀ (env : CancelEnv) (db : DB) (pid : Int) (p : Purchase),
       env.findErr = none → env.updateErr = none → db.findPurchase pid = some p →
       ∃ q, (CancelPayment env db pid).2.findPurchase pid = some q ∧
         q.status = PurchaseStatus.cancel) := by
  refine ⟨ProcessPurchaseById_paid_preserved, ?_, CancelPayment_sets_cancel⟩
  intro env db pid p h1 h2 h3 h4
  rw [checkRapyd_paid env db pid p h1 h2 h3 h4]

theorem claim_C2_witness :
    ((ProcessPurchaseById orchEnvOk dbPaid 1).2.1.findPurchase 1 = some paidRapydPurchase ∧
     paidRapydPurchase.status = PurchaseStatus.paid) ∧
    (CheckRapydPaymentStatus checkEnvW dbPaid 1).2.1 = dbPaid ∧
    (∃ q, (CancelPayment cancelEnvOk dbPaid 1).2.findPurchase 1 = some q ∧
       q.status = PurchaseStatus.cancel) :=
  ⟨⟨by decide,
    claim_C2.1 orchEnvOk dbPaid 1 paidRapydPurchase paidRapydPurchase (by decide) rfl (by decide)⟩,
   claim_C2.2.1 checkEnvW dbPaid 1 paidRapydPurchase rfl (by decide) rfl rfl,
   claim_C2.2.2 cancelEnvOk dbPaid 1 paidRapydPurchase rfl rfl (by decide)⟩

/-- C2 counterexample: `CancelPayment` moves a purchase already in status
Paid to status Cancel. -/
theorem claim_C2_counterexample :
    dbPaid.findPurchase 1 = some paidRapydPurchase ∧
    paidRapydPurchase.status = PurchaseStatus.paid ∧
    ((CancelPayment cancelEnvOk dbPaid 1).2.findPurchase 1).map Purchase.status =
      some PurchaseStatus.cancel := by
  refine ⟨by decide, rfl, by decide⟩

/-- C3: `CheckRapydPaymentStatus` follows the specified polling algorithm:
NotFound error when the purchase is absent; an error when the invoice type is
not Rapyd; immediate (true, nil) with no remote call and no state change when
already Paid; an error (never a false paid) when no correlation id is stored;
otherwise one remote status query, classifying the purchase as paid exactly
when the top-level status is "COMPLETED" or the embedded payment status is
"CLO", invoking the Activation Orchestrator and returning its outcome when
paid, and returning (false, nil) — a normal outcome — when not paid. -/
theorem claim_C3 :
    (∀ (env : CheckEnv) (db : DB) (pid : Int),
       env.findErr = none → db.findPurchase pid = none →
       CheckRapydPaymentStatus env db pid = ((false, some ⟨"purchase not found"⟩), db, [])) ∧
    (∀ (env : CheckEnv) (db : DB) (pid : Int) (p : Purchase),
       env.findErr = none → db.findPurchase pid = some p → p.invoiceType ≠ InvoiceType.rapyd →
       ∃ e, CheckRapydPaymentStatus env db pid = ((false, some e), db, [])) ∧
    (∀ (env : CheckEnv) (db : DB) (pid : Int) (p : Purchase),
       env.findErr = none → db.findPurchase pid = some p →
       p.invoiceType = InvoiceType.rapyd → p.status = PurchaseStatus.paid →
       CheckRapydPaymentStatus env db pid = ((true, none), db, [])) ∧
    (∀ (env : CheckEnv) (db : DB) (pid : Int) (p : Purchase),
       env.findErr = none → db.findPurchase pid = some p →
       p.invoiceType = InvoiceType.rapyd → p.status ≠ PurchaseStatus.paid →
       (p.rapydCheckoutId = none ∨ p.rapydCheckoutId = some "") →
       ∃ e, CheckRapydPaymentStatus env db pid = ((false, some e), db, [])) ∧
    (∀ (env : CheckEnv) (db : DB) (pid : Int) (p : Purchase) (cid : String) (st : CheckoutStatusData),
       env.findErr = none → db.findPurchase pid = some p →
       p.invoiceType = InvoiceType.rapyd → p.status ≠ PurchaseStatus.paid →
       p.rapydCheckoutId = some cid → cid ≠ "" →
       env.getCheckoutStatus cid = .ok st →
       (rapydPaidClass st = false →
          CheckRapydPaymentStatus env db pid = ((false, none), db, [Ev.remoteStatus cid])) ∧
       (∀ db1 evs, rapydPaidClass st = true →
          ProcessPurchaseById env.orch db pid = (none, db1, evs) →
          CheckRapydPaymentStatus env db pid = ((true, none), db1, Ev.remoteStatus cid :: evs)) ∧
       (∀ e db1 evs, rapydPaidClass st = true →
          ProcessPurchaseById env.orch db pid = (some e, db1, evs) →
          CheckRapydPaymentStatus env db pid =
            ((false, some (wrapErr "failed to process purchase: " e)), db1,
             Ev.remoteStatus cid :: evs))) ∧
    (∀ st : CheckoutStatusData,
       rapydPaidClass st = true ↔
         (st.status = "COMPLETED" ∨ ∃ pm, st.payment = some pm ∧ pm.status = "CLO")) := by
  refine ⟨?_, ?_, checkRapyd_paid, ?_, ?_, ?_⟩
  · intro env db pid h1 h2
    unfold CheckRapydPaymentStatus
    rw [h1]; dsimp only
    rw [h2]
  · intro env db pid p h1 h2 h3
    refine ⟨⟨"purchase is not a Rapyd payment"⟩, ?_⟩
    unfold CheckRapydPaymentStatus
    rw [h1]; dsimp only
    rw [h2]; dsimp only
    simp [bne_iff_ne, h3]
  · intro env db pid p h1 h2 h3 h4 h5
    refine ⟨⟨"purchase has no Rapyd checkout ID"⟩, ?_⟩
    unfold CheckRapydPaymentStatus
    rw [h1]; dsimp only
    rw [h2]; dsimp only
    rcases h5 with h5 | h5 <;> simp [h3, h4, h5]
  · intro env db pid p cid st h1 h2 h3 h4 h5 h6 h7
    refine ⟨?_, ?_, ?_⟩
    · intro hcls
      unfold CheckRapydPaymentStatus
      rw [h1]; dsimp only
      rw [h2]; dsimp only
      simp [h3, h4, h5, h6, h7, hcls]
    · intro db1 evs hcls hrun
      unfold CheckRapydPaymentStatus
      rw [h1]; dsimp only
      rw [h2]; dsimp only
      simp [h3, h4, h5, h6, h7, hcls, hrun]
    · intro e db1 evs hcls hrun
      unfold CheckRapydPaymentStatus
      rw [h1]; dsimp only
      rw [h2]; dsimp only
      simp [h3, h4, h5, h6, h7, hcls, hrun]
  · intro st
    unfold rapydPaidClass
    cases hpm : st.payment with
    | none => simp
    | some pm => simp

theorem claim_C3_witness :
    (checkEnvW.findErr = none ∧ dbPaid.findPurchase 1 = some paidRapydPurchase ∧
     paidRapydPurchase.invoiceType = InvoiceType.rapyd ∧
     paidRapydPurchase.status = PurchaseStatus.paid ∧
     CheckRapydPaymentStatus checkEnvW dbPaid 1 = ((true, none), dbPaid, [])) ∧
    (dbEmpty.findPurchase 1 = none ∧
     CheckRapydPaymentStatus checkEnvW dbEmpty 1 =
       ((false, some ⟨"purchase not found"⟩), dbEmpty, [])) :=
  ⟨⟨rfl, by decide, rfl, rfl,
    claim_C3.2.2.1 checkEnvW dbPaid 1 paidRapydPurchase rfl (by decide) rfl rfl⟩,
   ⟨by decide, claim_C3.1 checkEnvW dbEmpty 1 rfl (by decide)⟩⟩

/-- C4 (code-bug demonstration at the failing input): when the remote
invoice-link creation fails, the chat-native adapter `createTelegramInvoice`
still transitions the row to Pending and returns a nil error with an empty
URL — the source discards the `CreateInvoiceLink` error — whereas the crypto
adapter at the analogous failure leaves the row in New and returns the
error. -/
theorem claim_C4 :
    ((createTelegramInvoice telegramEnvFail dbEmpty 500 1 custA).1 = ("", 1, none) ∧
     ((createTelegramInvoice telegramEnvFail dbEmpty 500 1 custA).2.findPurchase 1).map
       Purchase.status = some PurchaseStatus.pending) ∧
    ((createCryptoInvoice cryptoEnvFail dbEmpty 500 1 custA).1 =
       ("", 0, some ⟨"cryptopay: create invoice failed"⟩) ∧
     ((createCryptoInvoice cryptoEnvFail dbEmpty 500 1 custA).2.findPurchase 1).map
       Purchase.status = some PurchaseStatus.new) := by
  refine ⟨⟨by decide, by decide⟩, ⟨by decide, by decide⟩⟩

/-- C5: when the referral's bonus-granted flag is already true, a second
activation of the same referee performs zero referrer entitlement-extension
calls and no further referrer state updates (the referral table is untouched
and the trace holds no referral-engine events); and across any run the flag
is monotone — once true it stays true — so it flips false to true at most
once. -/
theorem claim_C5 :
    (∀ (env : OrchEnv) (db : DB) (pid : Int) (p : Purchase) (c : Customer) (r : Referral),
       db.findPurchase pid = some p → db.findCustomer p.customerId = some c →
       env.findByRefereeErr = none → db.findReferral c.telegramId = some r →
       r.bonusGranted = true →
       (ProcessPurchaseById env db pid).2.1.referrals = db.referrals ∧
       (ProcessPurchaseById env db pid).2.2.filter isReferrerEv = []) ∧
    (∀ (env : OrchEnv) (db : DB) (pid tid : Int) (r : Referral),
       db.findReferral tid = some r → r.bonusGranted = true →
       ∃ r2, (ProcessPurchaseById env db pid).2.1.findReferral tid = some r2 ∧
         r2.bonusGranted = true) :=
  ⟨fun env db pid p c r hp hc hfr hr hflag =>
     ProcessPurchaseById_granted_noop env db pid p c r hp hc hfr hr hflag,
   fun env db pid tid r hr hflag =>
     ProcessPurchaseById_flag_monotone env db pid tid r hr hflag⟩

theorem claim_C5_witness :
    ((ProcessPurchaseById orchEnvOk dbGranted 1).2.1.referrals = dbGranted.referrals ∧
     (ProcessPurchaseById orchEnvOk dbGranted 1).2.2.filter isReferrerEv = []) ∧
    (∃ r2, (ProcessPurchaseById orchEnvOk dbGranted 1).2.1.findReferral 100 = some r2 ∧
       r2.bonusGranted = true) :=
  ⟨claim_C5.1 orchEnvOk dbGranted 1 pendingRapydPurchase custA grantedReferral
     (by decide) (by decide) rfl (by decide) rfl,
   claim_C5.2 orchEnvOk dbGranted 1 100 grantedReferral (by decide) rfl⟩

/-- C6: for every input tuple, the outbound-request signature produced by
`generateSignatureWithSalt` (and by `makeRequestRaw`, with the empty string
as body for bodyless requests) equals the base64 encoding of the hex encoding
of the HMAC-SHA256 digest, keyed by the shared secret, of
lowercase(method) ++ path ++ salt ++ timestamp ++ accessKey ++ secret ++ body. -/
theorem claim_C6 :
    ∀ (accessKey secretKey method endpoint body timestamp salt : Bytes),
      generateSignatureWithSalt accessKey secretKey method endpoint body timestamp salt =
        specSignature accessKey secretKey method endpoint salt timestamp body ∧
      makeRequestSignature accessKey secretKey method endpoint (some body) timestamp salt =
        specSignature accessKey secretKey method endpoint salt timestamp body ∧
      makeRequestSignature accessKey secretKey method endpoint none timestamp salt =
        specSignature accessKey secretKey method endpoint salt timestamp [] :=
  fun _ _ _ _ _ _ _ => ⟨rfl, rfl, rfl⟩

/-- C7 (amended): the signing function is deterministic, and changing any
single component other than the method changes the HMAC-SHA256 preimage (the
signed byte string); for the method, the signature depends on it exactly
through its lowercase form — two methods with the same lowercase form yield
the identical signature, ones with different lowercase forms yield different
preimages. -/
theorem claim_C7 :
    (∀ a k m p b t s,
       generateSignatureWithSalt a k m p b t s = generateSignatureWithSalt a k m p b t s) ∧
    (∀ a k m p b t s m2, goToLower m = goToLower m2 →
       generateSignatureWithSalt a k m p b t s = generateSignatureWithSalt a k m2 p b t s) ∧
    (∀ (a k m p b t s m2 : Bytes), goToLower m ≠ goToLower m2 →
       toSign a k m p b t s ≠ toSign a k m2 p b t s) ∧
    (∀ (a k m p b t s p2 : Bytes), p ≠ p2 →
       toSign a k m p b t s ≠ toSign a k m p2 b t s) ∧
    (∀ (a k m p b t s s2 : Bytes), s ≠ s2 →
       toSign a k m p b t s ≠ toSign a k m p b t s2) ∧
    (∀ (a k m p b t s t2 : Bytes), t ≠ t2 →
       toSign a k m p b t s ≠ toSign a k m p b t2 s) ∧
    (∀ (a k m p b t s a2 : Bytes), a ≠ a2 →
       toSign a k m p b t s ≠ toSign a2 k m p b t s) ∧
    (∀ (a k m p b t s k2 : Bytes), k ≠ k2 →
       toSign a k m p b t s ≠ toSign a k2 m p b t s) ∧
    (∀ (a k m p b t s b2 : Bytes), b ≠ b2 →
       toSign a k m p b t s ≠ toSign a k m p b2 t s) := by
  refine ⟨fun a k m p b t s => rfl, ?_, ?_, ?_, ?_, ?_, ?_, ?_, ?_⟩
  · intro a k m p b t s m2 hlo
    unfold generateSignatureWithSalt toSign
    rw [hlo]
  · intro a k m p b t s m2 hne heq
    unfold toSign at heq
    exact hne (List.append_cancel_right (List.append_cancel_right (List.append_cancel_right
      (List.append_cancel_right (List.append_cancel_right (List.append_cancel_right heq))))))
  · intro a k m p b t s p2 hne heq
    unfold toSign at heq
    exact hne (List.append_cancel_left (List.append_cancel_right (List.append_cancel_right
      (List.append_cancel_right (List.append_cancel_right (List.append_cancel_right heq))))))
  · intro a k m p b t s s2 hne heq
    unfold toSign at heq
    exact hne (List.append_cancel_left (List.append_cancel_right (List.append_cancel_right
      (List.append_cancel_right (List.append_cancel_right heq)))))
  · intro a k m p b t s t2 hne heq
    unfold toSign at heq
    exact hne (List.append_cancel_left (List.append_cancel_right (List.append_cancel_right
      (List.append_cancel_right heq))))
  · intro a k m p b t s a2 hne heq
    unfold toSign at heq
    exact hne (List.append_cancel_left (List.append_cancel_right (List.append_cancel_right heq)))
  · intro a k m p b t s k2 hne heq
    unfold toSign at heq
    exact hne (List.append_cancel_left (List.append_cancel_right heq))
  · intro a k m p b t s b2 hne heq
    unfold toSign at heq
    exact hne (List.append_cancel_left heq)

theorem claim_C7_witness :
    (asciiBytes "/v1/checkout" ≠ asciiBytes "/v1/payments" ∧
     toSign (asciiBytes "ak") (asciiBytes "sk") (asciiBytes "get") (asciiBytes "/v1/checkout")
         (asciiBytes "") (asciiBytes "1700000000") (asciiBytes "a1b2") ≠
       toSign (asciiBytes "ak") (asciiBytes "sk") (asciiBytes "get") (asciiBytes "/v1/payments")
         (asciiBytes "") (asciiBytes "1700000000") (asciiBytes "a1b2")) ∧
    (goToLower (asciiBytes "GET") = goToLower (asciiBytes "get") ∧
     generateSignatureWithSalt (asciiBytes "ak") (asciiBytes "sk") (asciiBytes "GET")
         (asciiBytes "/v1/checkout") (asciiBytes "") (asciiBytes "1700000000") (asciiBytes "a1b2") =
       generateSignatureWithSalt (asciiBytes "ak") (asciiBytes "sk") (asciiBytes "get")
         (asciiBytes "/v1/checkout") (asciiBytes "") (asciiBytes "1700000000") (asciiBytes "a1b2")) :=
  ⟨⟨by decide,
    claim_C7.2.2.2.1 (asciiBytes "ak") (asciiBytes "sk") (asciiBytes "get") (asciiBytes "/v1/checkout")
      (asciiBytes "") (asciiBytes "1700000000") (asciiBytes "a1b2") (asciiBytes "/v1/payments")
      (by decide)⟩,
   ⟨by decide,
    claim_C7.2.1 (asciiBytes "ak") (asciiBytes "sk") (asciiBytes "GET") (asciiBytes "/v1/checkout")
      (asciiBytes "") (asciiBytes "1700000000") (asciiBytes "a1b2") (asciiBytes "get")
      (by decide)⟩⟩

/-- C7 counterexample: the tuples with methods "GET" and "get" differ in
exactly one component yet produce identical signatures, because the method is
lowercased before signing. -/
theorem claim_C7_counterexample :
    asciiBytes "GET" ≠ asciiBytes "get" ∧
    generateSignatureWithSalt (asciiBytes "ak") (asciiBytes "sk") (asciiBytes "GET")
        (asciiBytes "/v1/checkout") (asciiBytes "") (asciiBytes "1700000000")
        (asciiBytes "a1b2c3d4e5f60718") =
      generateSignatureWithSalt (asciiBytes "ak") (asciiBytes "sk") (asciiBytes "get")
        (asciiBytes "/v1/checkout") (asciiBytes "") (asciiBytes "1700000000")
        (asciiBytes "a1b2c3d4e5f60718") := by
  constructor
  · decide
  · exact congrArg
      (fun x => base64Encode (hexEncode (hmacSha256 (asciiBytes "sk") x)))
      (by decide :
        toSign (asciiBytes "ak") (asciiBytes "sk") (asciiBytes "GET") (asciiBytes "/v1/checkout")
            (asciiBytes "") (asciiBytes "1700000000") (asciiBytes "a1b2c3d4e5f60718") =
          toSign (asciiBytes "ak") (asciiBytes "sk") (asciiBytes "get") (asciiBytes "/v1/checkout")
            (asciiBytes "") (asciiBytes "1700000000") (asciiBytes "a1b2c3d4e5f60718"))

/- negotiation helper -/

theorem findCardCountry_none
    (getPM : String → String → Except GoErr (List PaymentMethodDetails)) (currency : String)
    (l : List String)
    (H : ∀ c ∈ l, ∀ ms, getPM c currency = .ok ms → ms.filter isActiveCard = []) :
    findCardCountry getPM currency l = none := by
  induction l with
  | nil => rfl
  | cons c rest ih =>
    unfold findCardCountry
    cases hg : getPM c currency with
    | error e =>
      exact ih (fun x hx ms h => H x (List.mem_cons_of_mem _ hx) ms h)
    | ok ms =>
      dsimp only
      have hf := H c (List.mem_cons_self _ _) ms hg
      rw [hf]
      exact ih (fun x hx ms2 h => H x (List.mem_cons_of_mem _ hx) ms2 h)

theorem negotiate_fallback
    (getPM : String → String → Except GoErr (List PaymentMethodDetails))
    (amount : Int) (currency0 : String)
    (H : ∀ c ∈ countriesToTry (requestedCurrency currency0), ∀ ms,
       getPM c (requestedCurrency currency0) = .ok ms → ms.filter isActiveCard = []) :
    (negotiate getPM amount currency0).2.1 = "EUR" ∧
    (negotiate getPM amount currency0).2.2 = "DE" := by
  unfold negotiate
  dsimp only
  rw [findCardCountry_none getPM (requestedCurrency currency0) _ H]
  dsimp only
  cases hc : requestedCurrency currency0 == "USD" with
  | false => simp [hc]
  | true =>
    simp only [hc, if_true]
    cases hg : getPM "DE" "EUR" with
    | ok ms => exact ⟨rfl, rfl⟩
    | error e => exact ⟨rfl, rfl⟩

/-- C8: if no country in the requested currency's ordered candidate list
offers an active card-category payment method (category "card", status 1),
checkout creation still proceeds — negotiation is total and never aborts the
sale — using the fixed fallback pair EUR/DE, and the call's outcome is
exactly the HTTP stage applied to that fallback request. -/
theorem claim_C8 :
    ∀ (getPM : String → String → Except GoErr (List PaymentMethodDetails))
      (http : CreateCheckoutRequest → Except GoErr CheckoutData)
      (amount : Int) (currency0 description customerID purchaseID : String),
      (∀ c ∈ countriesToTry (requestedCurrency currency0), ∀ ms,
         getPM c (requestedCurrency currency0) = .ok ms → ms.filter isActiveCard = []) →
      (negotiate getPM amount currency0).2.1 = "EUR" ∧
      (negotiate getPM amount currency0).2.2 = "DE" ∧
      rapydCreateCheckout getPM http amount currency0 description customerID purchaseID =
        checkoutOutcome http
          (mkCheckoutRequest (negotiate getPM amount currency0).1 "EUR" "DE"
            description customerID purchaseID) := by
  intro getPM http amount currency0 description customerID purchaseID H
  obtain ⟨h1, h2⟩ := negotiate_fallback getPM amount currency0 H
  refine ⟨h1, h2, ?_⟩
  unfold rapydCreateCheckout
  dsimp only
  rw [h1, h2]

theorem claim_C8_witness :
    (negotiate getPMfail 500 "USD").2.1 = "EUR" ∧
    (negotiate getPMfail 500 "USD").2.2 = "DE" ∧
    rapydCreateCheckout getPMfail httpOkW 500 "USD" "d" "10" "1" =
      checkoutOutcome httpOkW
        (mkCheckoutRequest (negotiate getPMfail 500 "USD").1 "EUR" "DE" "d" "10" "1") :=
  claim_C8 getPMfail httpOkW 500 "USD" "d" "10" "1"
    (fun _ _ _ h => Except.noConfusion h)

/- conversion helpers -/

theorem goTruncQ_intCast (n : Int) : goTruncQ (n : ℚ) = n := by
  unfold goTruncQ
  split <;> simp

theorem goTruncQ_round_int (a kk : Int) :
    goTruncQ ((a : ℚ) * (kk : ℚ)) = round ((a : ℚ) * (kk : ℚ)) := by
  have hcast : ((a * kk : Int) : ℚ) = (a : ℚ) * (kk : ℚ) := by push_cast; ring
  rw [← hcast, goTruncQ_intCast, round_intCast]

/-- C9: for every USD amount and currency the conversion function agrees
with the spec-side rule: JPY, KRW and IDR (no fractional minor unit) give the
rate-converted amount rounded to the nearest whole unit, every other currency
in the table rounds half-up (0.5 added before truncation), and unknown
currencies return the original amount unchanged. -/
theorem claim_C9 : ∀ (amountUSD : Int) (currency : String),
    convertAmountToCurrency amountUSD currency = convertAmountSpec amountUSD currency := by
  intro a c
  unfold convertAmountToCurrency convertAmountSpec
  cases hl : rates.lookup c with
  | none => rfl
  | some rate =>
    dsimp only
    cases hz : c == "JPY" || c == "KRW" || c == "IDR" with
    | false => rfl
    | true =>
      simp only [Bool.or_eq_true, beq_iff_eq] at hz
      rcases hz with (hz | hz) | hz <;> subst hz
      · have h150 : rates.lookup "JPY" = some 150 := by decide
        rw [h150] at hl
        injection hl with hrate
        subst hrate
        have hcast : (150 : ℚ) = ((150 : Int) : ℚ) := by norm_num
        rw [hcast]
        exact goTruncQ_round_int a 150
      · have h1300 : rates.lookup "KRW" = some 1300 := by decide
        rw [h1300] at hl
        injection hl with hrate
        subst hrate
        have hcast : (1300 : ℚ) = ((1300 : Int) : ℚ) := by norm_num
        rw [hcast]
        exact goTruncQ_round_int a 1300
      · have h15000 : rates.lookup "IDR" = some 15000 := by decide
        rw [h15000] at hl
        injection hl with hrate
        subst hrate
        have hcast : (15000 : ℚ) = ((15000 : Int) : ℚ) := by norm_num
        rw [hcast]
        exact goTruncQ_round_int a 15000

/-- C10: the ledger row persisted by `createRapydInvoice` always records
Currency "USD" and Amount equal to the original requested amount, whatever
the currency negotiation and amount conversion do to the checkout request. -/
theorem claim_C10 :
    ∀ (env : RapydEnv) (db : DB) (amount months : Int) (customer : Customer),
      db.findPurchase db.nextPurchaseId = none →
      ∀ q, (createRapydInvoice env db amount months customer).2.findPurchase db.nextPurchaseId =
          some q →
        q.currency = "USD" ∧ q.amount = (amount : ℚ) := by
  intro env db amount months customer hfresh q hq
  unfold createRapydInvoice at hq
  cases h1 : env.createErr with
  | some e =>
    rw [h1] at hq
    dsimp only at hq
    rw [hfresh] at hq
    cases hq
  | none =>
    rw [h1] at hq
    dsimp only [DB.createPurchase] at hq
    have hrow : ∀ db2 : DB,
        db2.purchases =
          ({ id := db.nextPurchaseId, customerId := customer.id,
             invoiceType := InvoiceType.rapyd, status := PurchaseStatus.new,
             amount := (amount : ℚ), currency := "USD", month := months,
             rapydCheckoutId := none, rapydUrl := none,
             cryptoInvoiceId := none, cryptoInvoiceUrl := none } : Purchase) :: db.purchases →
        ∀ q2, db2.findPurchase db.nextPurchaseId = some q2 →
          q2.currency = "USD" ∧ q2.amount = (amount : ℚ) := by
      intro db2 hdb2 q2 hq2
      unfold DB.findPurchase at hq2
      rw [hdb2] at hq2
      rw [List.find?_cons_of_pos _ (by simp)] at hq2
      injection hq2 with h
      rw [← h]
      exact ⟨rfl, rfl⟩
    cases h2 : rapydCreateCheckout env.getPM env.http
        (convertAmountToCurrency amount (getOptimalCurrencyForUser customer))
        (getOptimalCurrencyForUser customer)
        ("Subscription for " ++ toString months ++ " month(s)")
        (toString customer.id) (toString db.nextPurchaseId) with
    | error e =>
      rw [h2] at hq
      dsimp only at hq
      exact hrow _ rfl q hq
    | ok checkoutData =>
      rw [h2] at hq
      dsimp only at hq
      cases h3 : env.updateErr with
      | some e =>
        rw [h3] at hq
        dsimp only at hq
        exact hrow _ rfl q hq
      | none =>
        rw [h3] at hq
        dsimp only at hq
        rw [updateRapydFields_findPurchase] at hq
        cases hfind : DB.findPurchase
            { db with
              purchases :=
                ({ id := db.nextPurchaseId, customerId := customer.id,
                   invoiceType := InvoiceType.rapyd, status := PurchaseStatus.new,
                   amount := (amount : ℚ), currency := "USD", month := months,
                   rapydCheckoutId := none, rapydUrl := none,
                   cryptoInvoiceId := none, cryptoInvoiceUrl := none } : Purchase) :: db.purchases,
              nextPurchaseId := db.nextPurchaseId + 1 } db.nextPurchaseId with
        | none => rw [hfind] at hq; cases hq
        | some q0 =>
          rw [hfind] at hq
          rw [Option.map_some'] at hq
          injection hq with h
          obtain ⟨hcur, hamt⟩ := hrow _ rfl q0 hfind
          rw [← h]
          rw [setRapydFields_currency, setRapydFields_amount]
          exact ⟨hcur, hamt⟩

theorem claim_C10_witness :
    dbEmpty.findPurchase dbEmpty.nextPurchaseId = none ∧
    (createRapydInvoice rapydEnvW dbEmpty 500 1 custA).2.findPurchase dbEmpty.nextPurchaseId =
      some qC10 ∧
    qC10.currency = "USD" ∧ qC10.amount = (500 : ℚ) :=
  ⟨by decide, by decide,
   (claim_C10 rapydEnvW dbEmpty 500 1 custA (by decide) qC10 (by decide)).1,
   (claim_C10 rapydEnvW dbEmpty 500 1 custA (by decide) qC10 (by decide)).2⟩
